import Mathlib

/-!
# after-effects: the two `wrapper.hpp` header aggregates

A verification development over the declarations that the two wrapper headers
(`after-effects-sys/wrapper.hpp`, `premiere-sys/wrapper.hpp`) contribute
themselves: the four-character pixel-format macro and the two GPU formats, the
string-suite error codes, name and version, the packed `PrSDKStringSuite`
function table, and the conditional inclusion of optional vendor headers.

Machine integers are natural numbers / integers with explicit reduction
modulo `2^8` and `2^32`.
-/

namespace AfterEffects

/-! ## Fixed-width casts of C -/

/-- The cast `(uint8_t)(x)` of an integer: reduction modulo `2^8`. -/
def castU8 (x : Int) : Nat := (x % 256).toNat

/-- The cast `(uint32_t)(x)` of an unsigned value: reduction modulo `2^32`. -/
def castU32 (x : Nat) : Nat := x % 2 ^ 32

/-- The shift `x << k` in `uint32_t` arithmetic: the result wraps modulo `2^32`. -/
def shl32 (x k : Nat) : Nat := (x <<< k) % 2 ^ 32

/-- Reading a value modulo `2^32` as a two's complement signed 32-bit integer
(the conversion to `csSDK_int32`, of which `prSuiteError` is a typedef). -/
def toInt32 (n : Nat) : Int :=
  if n % 2 ^ 32 < 2 ^ 31 then ((n % 2 ^ 32 : Nat) : Int) else ((n % 2 ^ 32 : Nat) : Int) - 2 ^ 32

/-! ## `premiere-sys/wrapper.hpp`: GPU pixel formats -/

/-- The macro
`#define MAKE_PIXEL_FORMAT_FOURCC(ch0, ch1, ch2, ch3) ((uint32_t)(uint8_t)(ch0) |
((uint32_t)(uint8_t)(ch1) << 8) | ((uint32_t)(uint8_t)(ch2) << 16) |
((uint32_t)(uint8_t)(ch3) << 24 ))`. -/
def MAKE_PIXEL_FORMAT_FOURCC (ch0 ch1 ch2 ch3 : Int) : Nat :=
  castU32 (castU8 ch0) ||| shl32 (castU32 (castU8 ch1)) 8 |||
    shl32 (castU32 (castU8 ch2)) 16 ||| shl32 (castU32 (castU8 ch3)) 24

/-- The value of a C character literal: its character code. -/
def charLit (c : Char) : Int := (c.toNat : Int)

/-- Enumerator `GPU_BGRA_4444_32f = MAKE_PIXEL_FORMAT_FOURCC('@', 'C', 'D', 'A')`. -/
def GPU_BGRA_4444_32f : Nat :=
  MAKE_PIXEL_FORMAT_FOURCC (charLit '@') (charLit 'C') (charLit 'D') (charLit 'A')

/-- Enumerator `GPU_BGRA_4444_16f = MAKE_PIXEL_FORMAT_FOURCC('@', 'C', 'D', 'a')`. -/
def GPU_BGRA_4444_16f : Nat :=
  MAKE_PIXEL_FORMAT_FOURCC (charLit '@') (charLit 'C') (charLit 'D') (charLit 'a')

/-- Extraction of byte `i` of a code: `(v >> 8*i) & 0xFF`. -/
def fourccByte (v i : Nat) : Nat := (v >>> (8 * i)) &&& 0xFF

/-! ## `after-effects-sys/wrapper.hpp`: string-suite constants -/

/-- Enumerator `suiteError_InvalidParms = 0x80000001`. -/
def suiteError_InvalidParms : Nat := 0x80000001

/-- Enumerator `suiteError_StringNotFound = 0x800A0000`. -/
def suiteError_StringNotFound : Nat := 0x800A0000

/-- Enumerator `suiteError_StringBufferTooSmall = 0x800A0001`. -/
def suiteError_StringBufferTooSmall : Nat := 0x800A0001

/-- The macro `#define kPrSDKStringSuite "MediaCore StringSuite"`. -/
def kPrSDKStringSuite : String := "MediaCore StringSuite"

/-- The macro `#define kPrSDKStringSuiteVersion 1`. -/
def kPrSDKStringSuiteVersion : Int := 1

/-! ## `after-effects-sys/wrapper.hpp`: the packed `PrSDKStringSuite` table -/

/-- The C type of a struct member, as far as layout is concerned: a pointer to a
function (return type and parameter types as written), or a scalar of a fixed
number of bytes. -/
inductive CType where
  | functionPointer (ret : String) (params : List String)
  | scalar (bytes : Nat)

/-- The size of a type in bytes, `p` being the size of a pointer. -/
def CType.size (p : Nat) : CType → Nat
  | .functionPointer _ _ => p
  | .scalar b => b

/-- The natural alignment of a type: pointers and scalars align to their size. -/
def CType.naturalAlign (p : Nat) : CType → Nat
  | .functionPointer _ _ => p
  | .scalar b => b

def CType.isFunctionPointer : CType → Bool
  | .functionPointer _ _ => true
  | .scalar _ => false

/-- A struct member declaration. -/
structure Member where
  name : String
  type : CType

/-- The members of `PrSDKStringSuite`, in declaration order (wrapper.hpp lines 94-98). -/
def PrSDKStringSuite : List Member :=
  [ ⟨"DisposeString", .functionPointer "prSuiteError" ["const PrSDKString *"]⟩,
    ⟨"AllocateFromUTF8", .functionPointer "prSuiteError" ["const uint8_t *", "PrSDKString *"]⟩,
    ⟨"CopyToUTF8String", .functionPointer "prSuiteError"
      ["const PrSDKString *", "uint8_t *", "csSDK_uint32 *"]⟩,
    ⟨"AllocateFromUTF16", .functionPointer "prSuiteError" ["const uint16_t *", "PrSDKString *"]⟩,
    ⟨"CopyToUTF16String", .functionPointer "prSuiteError"
      ["const PrSDKString *", "uint16_t *", "csSDK_uint32 *"]⟩ ]

/-- The packing in force at the declaration of `PrSDKStringSuite`:
`#pragma pack(push, 1)` precedes it and `#pragma pack(pop)` follows it. -/
def PrSDKStringSuite_pack : Option Nat := some 1

/-- Rounding an offset up to a multiple of an alignment. -/
def alignUp (off a : Nat) : Nat := (off + a - 1) / a * a

/-- The alignment a member gets: its natural alignment, capped by the value of
`#pragma pack` when one is in force. -/
def memberAlign (pack : Option Nat) (p : Nat) (m : Member) : Nat :=
  match pack with
  | none => m.type.naturalAlign p
  | some n => min n (m.type.naturalAlign p)

/-- Laying members out one after the other from offset `off`: each is placed at
the next multiple of its alignment. Returns the offsets and the end offset. -/
def layoutFrom (pack : Option Nat) (p : Nat) : Nat → List Member → List (String × Nat) × Nat
  | off, [] => ([], off)
  | off, m :: ms =>
    let o := alignUp off (memberAlign pack p m)
    let r := layoutFrom pack p (o + m.type.size p) ms
    ((m.name, o) :: r.1, r.2)

/-- The byte offset of every member of a struct. -/
def memberOffsets (pack : Option Nat) (p : Nat) (ms : List Member) : List (String × Nat) :=
  (layoutFrom pack p 0 ms).1

/-- The alignment of a struct: the largest alignment of its members. -/
def structAlign (pack : Option Nat) (p : Nat) (ms : List Member) : Nat :=
  (ms.map (memberAlign pack p)).foldl max 1

/-- The size of a struct: the end of its last member, rounded up to the alignment
of the struct (the tail padding). -/
def structSize (pack : Option Nat) (p : Nat) (ms : List Member) : Nat :=
  alignUp (layoutFrom pack p 0 ms).2 (structAlign pack p ms)

/-! ## Conditional inclusion in the two wrappers -/

/-- The lines of a wrapper that survive comment removal. -/
inductive Directive where
  | include (header : String)
  | ifdefFlag (name : String)
  | endif
  | define (name : String)
  | declare (symbol : String)
  | pragma (text : String)

/-- What a wrapper contributes once preprocessed: the headers it includes and
the names it declares itself, in order. -/
structure Preprocessed where
  includes : List String
  symbols : List String
deriving DecidableEq

/-- Whether every enclosing `#ifdef` holds. -/
def active (stack : List Bool) : Bool := stack.all id

/-- Conditional compilation of a wrapper: `defs` are the macros defined so far,
`stack` the truth values of the open `#ifdef`s. Lines in a false branch are
skipped; an `#endif` without `#ifdef`, or an `#ifdef` left open, is an error. -/
def preprocess : List String → List Bool → List Directive → Option Preprocessed
  | _, stack, [] => if stack.isEmpty then some ⟨[], []⟩ else none
  | defs, stack, .include h :: rest =>
    if active stack then
      (preprocess defs stack rest).map (fun r => ⟨h :: r.includes, r.symbols⟩)
    else preprocess defs stack rest
  | defs, stack, .ifdefFlag n :: rest => preprocess defs (decide (n ∈ defs) :: stack) rest
  | defs, stack, .endif :: rest =>
    match stack with
    | [] => none
    | _ :: outer => preprocess defs outer rest
  | defs, stack, .define n :: rest =>
    if active stack then
      (preprocess (n :: defs) stack rest).map (fun r => ⟨r.includes, n :: r.symbols⟩)
    else preprocess defs stack rest
  | defs, stack, .declare s :: rest =>
    if active stack then
      (preprocess defs stack rest).map (fun r => ⟨r.includes, s :: r.symbols⟩)
    else preprocess defs stack rest
  | defs, stack, .pragma _ :: rest => preprocess defs stack rest

/-- The file `after-effects-sys/wrapper.hpp`, comments (and with them the
commented-out includes) removed. -/
def aeWrapper : List Directive :=
  [ .include "stdint.h",
    .include "AEConfig.h",
    .include "A.h",
    .include "AE_AdvEffectSuites.h",
    .include "AE_CacheOnLoadSuite.h",
    .include "AE_ChannelSuites.h",
    .include "AE_CreatorInfo.h",
    .include "AE_Effect.h",
    .include "AE_EffectCB.h",
    .include "AE_EffectCBSuites.h",
    .include "AE_EffectGPUSuites.h",
    .include "AE_EffectPixelFormat.h",
    .include "AE_EffectSuites.h",
    .include "AE_EffectSuitesHelper.h",
    .include "AE_EffectUI.h",
    .include "AE_EffectVers.h",
    .include "AE_GeneralPlug.h",
    .include "AE_Hook.h",
    .include "AE_IO.h",
    .include "AE_IO_FileExt.h",
    .include "AE_Macros.h",
    .include "AE_PluginData.h",
    .include "FIEL_Public.h",
    .include "Mach-O_prefix.h",
    .include "PF_Masks.h",
    .include "PR_Public.h",
    .include "PT_Public.h",
    .include "PrSDKAESupport.h",
    .include "PrSDKPixelFormat.h",
    .include "SuiteHelper.h",
    .include "SPBasic.h",
    .include "entry.h",
    .include "adobesdk/DrawbotSuite.h",
    .ifdefFlag "ARTISAN_2_API",
    .include "AE_Scene3D_Private.h",
    .include "PR_Feature.h",
    .endif,
    .declare "prSuiteError",
    .declare "suiteError_InvalidParms",
    .declare "suiteError_StringNotFound",
    .declare "suiteError_StringBufferTooSmall",
    .define "kPrSDKStringSuite",
    .define "kPrSDKStringSuiteVersion",
    .pragma "pack(push, 1)",
    .declare "PrSDKStringSuite",
    .pragma "pack(pop)" ]

/-- The file `premiere-sys/wrapper.hpp`, comments removed. -/
def prWrapper : List Directive :=
  [ .include "stdint.h",
    .include "AEConfig.h",
    .include "PrSDKClipRenderSuite.h",
    .include "PrSDKDataStreamTypes.h",
    .include "PrSDKDevice.h",
    .include "PrSDKEffect.h",
    .include "PrSDKEntry.h",
    .include "PrSDKErrorSuite.h",
    .include "PrSDKGPUDeviceSuite.h",
    .include "PrSDKGPUFilter.h",
    .include "PrSDKGPUImageProcessingSuite.h",
    .include "PrSDKMemoryManagerSuite.h",
    .include "PrSDKPixelFormat.h",
    .include "PrSDKPixelFormatSuite.h",
    .include "PrSDKPlugMemory.h",
    .include "PrSDKPlugPPix.h",
    .include "PrSDKPlugSuites.h",
    .include "PrSDKPlugTimeline.h",
    .include "PrSDKPlugUtilities.h",
    .include "PrSDKPlugWindow.h",
    .include "PrSDKPPix2Suite.h",
    .include "PrSDKPPixCacheSuite.h",
    .include "PrSDKPPixCreator2Suite.h",
    .include "PrSDKPPixCreatorSuite.h",
    .include "PrSDKPPixSuite.h",
    .include "PrSDKQuality.h",
    .include "PrSDKRenderCacheType.h",
    .include "PrSDKSceneMetaData.h",
    .include "PrSDKSequenceInfoSuite.h",
    .include "PrSDKSequenceRenderSuite.h",
    .include "PrSDKSmartRenderingSuite.h",
    .include "PrSDKStringSuite.h",
    .include "PrSDKStructs.h",
    .include "PrSDKThreadedWorkSuite.h",
    .include "PrSDKTimeSuite.h",
    .include "PrSDKTypes.h",
    .include "PrSDKVideoSegmentProperties.h",
    .include "PrSDKVideoSegmentSuite.h",
    .include "PrSDKWindowSuite.h",
    .ifdefFlag "HAS_AE_SDK",
    .include "AE_EffectCB.h",
    .include "AE_CacheOnLoadSuite.h",
    .include "PrSDKAESupport.h",
    .include "PrSDKOpaqueEffectDataSuite.h",
    .include "Smart_Utils.h",
    .endif,
    .include "SPBasic.h",
    .define "MAKE_PIXEL_FORMAT_FOURCC",
    .declare "PrPixelFormatGpu",
    .declare "GPU_BGRA_4444_32f",
    .declare "GPU_BGRA_4444_16f" ]

/-- The names the After Effects wrapper declares whatever the configuration. -/
def stringSuiteSymbols : List String :=
  [ "prSuiteError", "suiteError_InvalidParms", "suiteError_StringNotFound",
    "suiteError_StringBufferTooSmall", "kPrSDKStringSuite", "PrSDKStringSuite" ]

/-- The headers of `b` that `a` does not have, in the order of `b`. -/
def addedIncludes (a b : Preprocessed) : List String :=
  b.includes.filter (fun h => decide (h ∉ a.includes))

/-! ## The suite provider of the specification

The wrappers only include `SPBasic.h`; the acquire/release operations
themselves are not part of the two files. They are modelled from the
specification's description of the `SuiteProvider` component. -/

/-- Modelled from the spec: `SuiteName`, "an opaque string identifier for a
capability table"; no definition of it is in the wrappers. -/
abbrev SuiteName := String

/-- Modelled from the spec: `SuiteVersion`, "an integer identifying the ABI
revision of a named suite"; no definition of it is in the wrappers. -/
abbrev SuiteVersion := Int

/-- Modelled from the spec: the errors of the `SuiteProvider` taxonomy
(`SuiteUnavailable`, `ContextInvalid`, `AlreadyReleased`, `NeverAcquired`);
they are not declared in the wrappers. -/
inductive SuiteError where
  | SuiteUnavailable
  | ContextInvalid
  | AlreadyReleased
  | NeverAcquired
deriving DecidableEq

/-- Modelled from the spec: the per-handle state machine
`Unacquired -> Acquired -> Released`, absent from the wrappers. -/
inductive HandleState where
  | Unacquired
  | Acquired
  | Released
deriving DecidableEq

/-- Modelled from the spec: `SuiteHandle`, the borrowed view of one suite table
obtained by one acquisition; `id` numbers the acquisitions of a context. The
wrappers do not define it. -/
structure SuiteHandle where
  id : Nat
  name : SuiteName
  version : SuiteVersion
deriving DecidableEq

/-- Modelled from the spec: the host's record of one handed-out handle, its
suite and its state; absent from the wrappers. -/
structure HandleRecord where
  name : SuiteName
  version : SuiteVersion
  state : HandleState
deriving DecidableEq

/-- Modelled from the spec: `AcquisitionContext`, the state "provided once by
the host", "the sole channel through which SuiteHandles are obtained": whether
the session is live, the (name, version) pairs the host advertises, and the
handles given out so far. The wrappers do not define it. -/
structure AcquisitionContext where
  live : Bool
  supported : List (SuiteName × SuiteVersion)
  handles : List HandleRecord

/-- Modelled from the spec: the state of a handle in a context; a handle the
context never gave out is `Unacquired`. Absent from the wrappers. -/
def handleState (ctx : AcquisitionContext) (h : SuiteHandle) : HandleState :=
  match ctx.handles[h.id]? with
  | none => .Unacquired
  | some r => r.state

/-- Modelled from the spec: "the host's reference count or resource for that
table": the number of handles of the pair that are acquired and not released.
Absent from the wrappers. -/
def refCount (ctx : AcquisitionContext) (name : SuiteName) (version : SuiteVersion) : Nat :=
  (ctx.handles.filter
    (fun r => decide (r.name = name ∧ r.version = version ∧ r.state = .Acquired))).length

/-- Modelled from the spec: `acquire(context, name, version)`, which is not in the
wrappers. It fails with `ContextInvalid` outside a valid session and with
`SuiteUnavailable` for a pair the host does not advertise; otherwise it returns
a fresh handle in state `Acquired`. -/
def acquire (ctx : AcquisitionContext) (name : SuiteName) (version : SuiteVersion) :
    Except SuiteError (SuiteHandle × AcquisitionContext) :=
  if ctx.live = false then .error .ContextInvalid
  else if (name, version) ∉ ctx.supported then .error .SuiteUnavailable
  else
    .ok (⟨ctx.handles.length, name, version⟩,
      { ctx with handles := ctx.handles ++ [⟨name, version, .Acquired⟩] })

/-- Modelled from the spec: `release(context, handle)`, which is not in the
wrappers. The handle "must have come from a prior successful acquire on the
same context" (otherwise `NeverAcquired`) "and must not already be released"
(otherwise `AlreadyReleased`); on success the handle becomes `Released`, which
decrements the reference count of its table. -/
def release (ctx : AcquisitionContext) (h : SuiteHandle) : Except SuiteError AcquisitionContext :=
  if ctx.live = false then .error .ContextInvalid
  else
    match ctx.handles[h.id]? with
    | none => .error .NeverAcquired
    | some r =>
      if r.name ≠ h.name ∨ r.version ≠ h.version then .error .NeverAcquired
      else
        match r.state with
        | .Unacquired => .error .NeverAcquired
        | .Released => .error .AlreadyReleased
        | .Acquired => .ok { ctx with handles := ctx.handles.set h.id { r with state := .Released } }

/-- A host session that advertises the string suite, with nothing acquired. -/
def sampleContext : AcquisitionContext :=
  ⟨true, [(kPrSDKStringSuite, kPrSDKStringSuiteVersion)], []⟩

/-! ## Evaluation checks -/

example : MAKE_PIXEL_FORMAT_FOURCC 0x41 0x42 0x43 0x44 = 0x44434241 := by decide
example : MAKE_PIXEL_FORMAT_FOURCC (-1) 0 0 0 = 255 := by decide
example : MAKE_PIXEL_FORMAT_FOURCC 256 257 0 511 = 0xFF000100 := by decide
example : GPU_BGRA_4444_32f = 1094992704 := by decide
example : toInt32 suiteError_InvalidParms = -2147483647 := by decide
example : kPrSDKStringSuite.data.all (fun c => decide (c.toNat < 128)) = true := by decide

example : memberOffsets (some 1) 8 PrSDKStringSuite
    = [("DisposeString", 0), ("AllocateFromUTF8", 8), ("CopyToUTF8String", 16),
       ("AllocateFromUTF16", 24), ("CopyToUTF16String", 32)] := by decide
example : structSize (some 1) 4 PrSDKStringSuite = 20 := by decide
example : memberOffsets none 8 [⟨"c", .scalar 1⟩, ⟨"f", .functionPointer "void" []⟩]
    = [("c", 0), ("f", 8)] := by decide
example : memberOffsets (some 1) 8 [⟨"c", .scalar 1⟩, ⟨"f", .functionPointer "void" []⟩]
    = [("c", 0), ("f", 1)] := by decide
example : structSize none 8 [⟨"f", .functionPointer "void" []⟩, ⟨"c", .scalar 1⟩] = 16 := by decide
example : structSize (some 1) 8 [⟨"f", .functionPointer "void" []⟩, ⟨"c", .scalar 1⟩] = 9 := by
  decide
example : (preprocess [] [] aeWrapper).map (fun r => r.includes.length) = some 33 := by
  simp [preprocess, aeWrapper, active]
example : (preprocess ["ARTISAN_2_API"] [] aeWrapper).map (fun r => r.includes.length)
    = some 35 := by
  simp [preprocess, aeWrapper, active]
example : preprocess [] [] [.endif] = none := by simp [preprocess]
example : preprocess [] [] [.ifdefFlag "X", .include "a.h"] = none := by simp [preprocess]

example : (acquire sampleContext kPrSDKStringSuite 1).toOption.map (fun r => r.1)
    = some ⟨0, kPrSDKStringSuite, 1⟩ := by decide
example : (acquire sampleContext kPrSDKStringSuite 2).toOption = none := by
  simp [acquire, sampleContext, kPrSDKStringSuiteVersion, Except.toOption]
example : (release sampleContext ⟨0, kPrSDKStringSuite, 1⟩).toOption.map (fun c => c.handles)
    = none := by decide

/-! ## Helper lemmas on the casts and on byte packing -/

theorem castU8_lt (x : Int) : castU8 x < 256 := by
  unfold castU8
  omega

theorem castU8_cast (x : Int) : ((castU8 x : Nat) : Int) = x % 256 := by
  unfold castU8
  omega

theorem castU8_of_byte (x : Int) (h0 : 0 ≤ x) (h1 : x < 256) : ((castU8 x : Nat) : Int) = x := by
  unfold castU8
  omega

/-- Bytes placed at disjoint bit positions: the bitwise OR is the sum. -/
theorem or_bytes_eq_sum (a b c d : Nat) (ha : a < 256) (hb : b < 256) (hc : c < 256)
    (_hd : d < 256) :
    a ||| (b <<< 8) ||| (c <<< 16) ||| (d <<< 24) = a + 2 ^ 8 * b + 2 ^ 16 * c + 2 ^ 24 * d := by
  have h1 : a ||| (b <<< 8) = 2 ^ 8 * b + a := by
    rw [Nat.lor_comm, Nat.shiftLeft_eq, Nat.mul_comm b]
    exact (Nat.mul_add_lt_is_or (by omega) b).symm
  have h2 : (2 ^ 8 * b + a) ||| (c <<< 16) = 2 ^ 16 * c + (2 ^ 8 * b + a) := by
    rw [Nat.lor_comm, Nat.shiftLeft_eq, Nat.mul_comm c]
    exact (Nat.mul_add_lt_is_or (by omega) c).symm
  have h3 : (2 ^ 16 * c + (2 ^ 8 * b + a)) ||| (d <<< 24)
      = 2 ^ 24 * d + (2 ^ 16 * c + (2 ^ 8 * b + a)) := by
    rw [Nat.lor_comm, Nat.shiftLeft_eq, Nat.mul_comm d]
    exact (Nat.mul_add_lt_is_or (by omega) d).symm
  rw [h1, h2, h3]
  omega

/-- On values below `2^8` neither the widening cast nor any of the three shifts wraps. -/
theorem shl32_byte (b k : Nat) (hb : b < 256) (hk : k ≤ 24) :
    shl32 (castU32 b) k = b <<< k := by
  unfold shl32 castU32
  have h24 : (2 : Nat) ^ k ≤ 2 ^ 24 := Nat.pow_le_pow_right (by decide) hk
  rw [Nat.mod_eq_of_lt (by omega : b < 2 ^ 32), Nat.shiftLeft_eq]
  apply Nat.mod_eq_of_lt
  calc b * 2 ^ k ≤ 255 * 2 ^ 24 := Nat.mul_le_mul (by omega) h24
    _ < 2 ^ 32 := by decide

/-- The macro as positional byte packing. -/
theorem MAKE_PIXEL_FORMAT_FOURCC_eq_sum (ch0 ch1 ch2 ch3 : Int) :
    MAKE_PIXEL_FORMAT_FOURCC ch0 ch1 ch2 ch3
      = castU8 ch0 + 2 ^ 8 * castU8 ch1 + 2 ^ 16 * castU8 ch2 + 2 ^ 24 * castU8 ch3 := by
  unfold MAKE_PIXEL_FORMAT_FOURCC
  rw [shl32_byte _ 8 (castU8_lt ch1) (by decide), shl32_byte _ 16 (castU8_lt ch2) (by decide),
    shl32_byte _ 24 (castU8_lt ch3) (by decide)]
  have h0 : castU32 (castU8 ch0) = castU8 ch0 := by
    unfold castU32
    exact Nat.mod_eq_of_lt (by have := castU8_lt ch0; omega)
  rw [h0]
  exact or_bytes_eq_sum _ _ _ _ (castU8_lt ch0) (castU8_lt ch1) (castU8_lt ch2) (castU8_lt ch3)

theorem fourccByte_eq (v i : Nat) : fourccByte v i = v / 2 ^ (8 * i) % 256 := by
  unfold fourccByte
  rw [Nat.shiftRight_eq_div_pow]
  exact Nat.and_pow_two_sub_one_eq_mod _ 8

/-! ## Helper lemmas on layout and on preprocessing -/

theorem alignUp_one (off : Nat) : alignUp off 1 = off := by
  simp [alignUp]

theorem alignUp_zero (off : Nat) : alignUp off 0 = 0 := by
  simp [alignUp]

theorem preprocess_aeWrapper (defs : List String) :
    preprocess defs [] aeWrapper = some
      ⟨[ "stdint.h", "AEConfig.h", "A.h", "AE_AdvEffectSuites.h", "AE_CacheOnLoadSuite.h",
         "AE_ChannelSuites.h", "AE_CreatorInfo.h", "AE_Effect.h", "AE_EffectCB.h",
         "AE_EffectCBSuites.h", "AE_EffectGPUSuites.h", "AE_EffectPixelFormat.h",
         "AE_EffectSuites.h", "AE_EffectSuitesHelper.h", "AE_EffectUI.h", "AE_EffectVers.h",
         "AE_GeneralPlug.h", "AE_Hook.h", "AE_IO.h", "AE_IO_FileExt.h", "AE_Macros.h",
         "AE_PluginData.h", "FIEL_Public.h", "Mach-O_prefix.h", "PF_Masks.h", "PR_Public.h",
         "PT_Public.h", "PrSDKAESupport.h", "PrSDKPixelFormat.h", "SuiteHelper.h", "SPBasic.h",
         "entry.h", "adobesdk/DrawbotSuite.h" ]
        ++ (if "ARTISAN_2_API" ∈ defs then ["AE_Scene3D_Private.h", "PR_Feature.h"] else []),
       [ "prSuiteError", "suiteError_InvalidParms", "suiteError_StringNotFound",
         "suiteError_StringBufferTooSmall", "kPrSDKStringSuite", "kPrSDKStringSuiteVersion",
         "PrSDKStringSuite" ]⟩ := by
  by_cases h : "ARTISAN_2_API" ∈ defs <;> simp [preprocess, aeWrapper, active, h]

theorem preprocess_prWrapper (defs : List String) :
    preprocess defs [] prWrapper = some
      ⟨[ "stdint.h", "AEConfig.h", "PrSDKClipRenderSuite.h", "PrSDKDataStreamTypes.h",
         "PrSDKDevice.h", "PrSDKEffect.h", "PrSDKEntry.h", "PrSDKErrorSuite.h",
         "PrSDKGPUDeviceSuite.h", "PrSDKGPUFilter.h", "PrSDKGPUImageProcessingSuite.h",
         "PrSDKMemoryManagerSuite.h", "PrSDKPixelFormat.h", "PrSDKPixelFormatSuite.h",
         "PrSDKPlugMemory.h", "PrSDKPlugPPix.h", "PrSDKPlugSuites.h", "PrSDKPlugTimeline.h",
         "PrSDKPlugUtilities.h", "PrSDKPlugWindow.h", "PrSDKPPix2Suite.h",
         "PrSDKPPixCacheSuite.h", "PrSDKPPixCreator2Suite.h", "PrSDKPPixCreatorSuite.h",
         "PrSDKPPixSuite.h", "PrSDKQuality.h", "PrSDKRenderCacheType.h", "PrSDKSceneMetaData.h",
         "PrSDKSequenceInfoSuite.h", "PrSDKSequenceRenderSuite.h",
         "PrSDKSmartRenderingSuite.h", "PrSDKStringSuite.h", "PrSDKStructs.h",
         "PrSDKThreadedWorkSuite.h", "PrSDKTimeSuite.h", "PrSDKTypes.h",
         "PrSDKVideoSegmentProperties.h", "PrSDKVideoSegmentSuite.h", "PrSDKWindowSuite.h" ]
        ++ (if "HAS_AE_SDK" ∈ defs then
              [ "AE_EffectCB.h", "AE_CacheOnLoadSuite.h", "PrSDKAESupport.h",
                "PrSDKOpaqueEffectDataSuite.h", "Smart_Utils.h" ]
            else [])
        ++ ["SPBasic.h"],
       [ "MAKE_PIXEL_FORMAT_FOURCC", "PrPixelFormatGpu", "GPU_BGRA_4444_32f",
         "GPU_BGRA_4444_16f" ]⟩ := by
  by_cases h : "HAS_AE_SDK" ∈ defs <;> simp [preprocess, prWrapper, active, h]

/-! ## The claims -/

/-- C1: `PrSDKStringSuite`, declared under `#pragma pack(push, 1)`, has exactly
five members, all pointers to functions, named `DisposeString`,
`AllocateFromUTF8`, `CopyToUTF8String`, `AllocateFromUTF16`, `CopyToUTF16String`
in this order; for every pointer size `p` the member of index `i` is at byte
offset `i * p` and the struct has size `5 * p`: there is no padding. -/
theorem PrSDKStringSuite_packed_layout (p : Nat) :
    PrSDKStringSuite_pack = some 1 ∧
    PrSDKStringSuite.length = 5 ∧
    PrSDKStringSuite.map Member.name
      = ["DisposeString", "AllocateFromUTF8", "CopyToUTF8String", "AllocateFromUTF16",
         "CopyToUTF16String"] ∧
    PrSDKStringSuite.all (fun m => m.type.isFunctionPointer) = true ∧
    memberOffsets PrSDKStringSuite_pack p PrSDKStringSuite
      = [("DisposeString", 0 * p), ("AllocateFromUTF8", 1 * p), ("CopyToUTF8String", 2 * p),
         ("AllocateFromUTF16", 3 * p), ("CopyToUTF16String", 4 * p)] ∧
    structSize PrSDKStringSuite_pack p PrSDKStringSuite = 5 * p := by
  refine ⟨rfl, rfl, rfl, rfl, ?_, ?_⟩
  · rcases Nat.eq_zero_or_pos p with h | h
    · subst h
      simp [memberOffsets, layoutFrom, PrSDKStringSuite, PrSDKStringSuite_pack, memberAlign,
        CType.naturalAlign, CType.size, alignUp_zero]
    · have hm : min 1 p = 1 := Nat.min_eq_left h
      simp only [memberOffsets, layoutFrom, PrSDKStringSuite, PrSDKStringSuite_pack, memberAlign,
        CType.naturalAlign, CType.size, hm, alignUp_one]
      simp
      omega
  · rcases Nat.eq_zero_or_pos p with h | h
    · subst h
      simp [structSize, structAlign, layoutFrom, PrSDKStringSuite, PrSDKStringSuite_pack,
        memberAlign, CType.naturalAlign, CType.size, alignUp_zero, alignUp_one]
    · have hm : min 1 p = 1 := Nat.min_eq_left h
      simp only [structSize, structAlign, layoutFrom, PrSDKStringSuite, PrSDKStringSuite_pack,
        memberAlign, CType.naturalAlign, CType.size, hm, alignUp_one, List.map, List.foldl,
        Nat.max_self]
      omega

/-- C2: every character of `kPrSDKStringSuite` (`"MediaCore StringSuite"`) is an
ASCII character (code below 128), and `kPrSDKStringSuiteVersion` is a
non-negative integer, at least 1: it is 1. -/
theorem kPrSDKStringSuite_ascii_and_version :
    kPrSDKStringSuite = "MediaCore StringSuite" ∧
    (∀ c ∈ kPrSDKStringSuite.data, c.toNat < 128) ∧
    0 ≤ kPrSDKStringSuiteVersion ∧ 1 ≤ kPrSDKStringSuiteVersion ∧
    kPrSDKStringSuiteVersion = 1 := by
  refine ⟨rfl, by decide, by decide, by decide, rfl⟩

/-- C3: the two GPU pixel formats are the four-character codes of `@CDA` and
`@CDa` with the first character in the lowest byte: `GPU_BGRA_4444_32f` is
`0x41444340` (1094992704) and `GPU_BGRA_4444_16f` is `0x61444340` (1631863616);
they are distinct, both below `2^31`, and so unchanged as signed 32-bit values. -/
theorem GPU_pixel_formats_values :
    GPU_BGRA_4444_32f
      = MAKE_PIXEL_FORMAT_FOURCC (charLit '@') (charLit 'C') (charLit 'D') (charLit 'A') ∧
    GPU_BGRA_4444_16f
      = MAKE_PIXEL_FORMAT_FOURCC (charLit '@') (charLit 'C') (charLit 'D') (charLit 'a') ∧
    GPU_BGRA_4444_32f = 0x41444340 ∧ GPU_BGRA_4444_32f = 1094992704 ∧
    GPU_BGRA_4444_16f = 0x61444340 ∧ GPU_BGRA_4444_16f = 1631863616 ∧
    [fourccByte GPU_BGRA_4444_32f 0, fourccByte GPU_BGRA_4444_32f 1,
      fourccByte GPU_BGRA_4444_32f 2, fourccByte GPU_BGRA_4444_32f 3]
      = ['@'.toNat, 'C'.toNat, 'D'.toNat, 'A'.toNat] ∧
    [fourccByte GPU_BGRA_4444_16f 0, fourccByte GPU_BGRA_4444_16f 1,
      fourccByte GPU_BGRA_4444_16f 2, fourccByte GPU_BGRA_4444_16f 3]
      = ['@'.toNat, 'C'.toNat, 'D'.toNat, 'a'.toNat] ∧
    GPU_BGRA_4444_32f ≠ GPU_BGRA_4444_16f ∧
    GPU_BGRA_4444_32f < 2 ^ 31 ∧ GPU_BGRA_4444_16f < 2 ^ 31 ∧
    toInt32 GPU_BGRA_4444_32f = 1094992704 ∧ toInt32 GPU_BGRA_4444_16f = 1631863616 := by
  refine ⟨rfl, rfl, ?_, ?_, ?_, ?_, ?_, ?_, ?_, ?_, ?_, ?_, ?_⟩ <;> decide

/-- C4: both settings of `ARTISAN_2_API` give a valid configuration of the
After Effects wrapper, which declares `prSuiteError`, the three `suiteError_*`
codes, `kPrSDKStringSuite` and `PrSDKStringSuite` in both; the headers included
with the flag undefined are among those included with it defined, and the
difference is exactly `AE_Scene3D_Private.h` and `PR_Feature.h`. In the
Premiere wrapper defining `HAS_AE_SDK` adds exactly `AE_EffectCB.h`,
`AE_CacheOnLoadSuite.h`, `PrSDKAESupport.h`, `PrSDKOpaqueEffectDataSuite.h` and
`Smart_Utils.h`, and removes nothing. -/
theorem optional_headers_gated_at_build_time (defs : List String)
    (hA : "ARTISAN_2_API" ∉ defs) (hP : "HAS_AE_SDK" ∉ defs) :
    (∃ a b, preprocess defs [] aeWrapper = some a ∧
      preprocess ("ARTISAN_2_API" :: defs) [] aeWrapper = some b ∧
      stringSuiteSymbols ⊆ a.symbols ∧ stringSuiteSymbols ⊆ b.symbols ∧
      a.includes ⊆ b.includes ∧
      addedIncludes a b = ["AE_Scene3D_Private.h", "PR_Feature.h"] ∧
      addedIncludes b a = []) ∧
    (∃ a b, preprocess defs [] prWrapper = some a ∧
      preprocess ("HAS_AE_SDK" :: defs) [] prWrapper = some b ∧
      a.includes ⊆ b.includes ∧
      addedIncludes a b = ["AE_EffectCB.h", "AE_CacheOnLoadSuite.h", "PrSDKAESupport.h",
        "PrSDKOpaqueEffectDataSuite.h", "Smart_Utils.h"] ∧
      addedIncludes b a = []) := by
  constructor
  · refine ⟨_, _, preprocess_aeWrapper defs, preprocess_aeWrapper _, ?_⟩
    simp only [hA, if_false, List.mem_cons, true_or, if_true, List.append_nil]
    refine ⟨by decide, by decide, by decide, by decide, by decide⟩
  · refine ⟨_, _, preprocess_prWrapper defs, preprocess_prWrapper _, ?_⟩
    simp only [hP, if_false, List.mem_cons, true_or, if_true, List.append_nil]
    refine ⟨by decide, by decide, by decide⟩

theorem optional_headers_gated_at_build_time_witness :
    "ARTISAN_2_API" ∉ ([] : List String) ∧ "HAS_AE_SDK" ∉ ([] : List String) ∧
    (∃ a b, preprocess [] [] aeWrapper = some a ∧
      preprocess ["ARTISAN_2_API"] [] aeWrapper = some b ∧
      stringSuiteSymbols ⊆ a.symbols ∧ stringSuiteSymbols ⊆ b.symbols ∧
      a.includes ⊆ b.includes ∧
      addedIncludes a b = ["AE_Scene3D_Private.h", "PR_Feature.h"] ∧
      addedIncludes b a = []) ∧
    (∃ a b, preprocess [] [] prWrapper = some a ∧
      preprocess ["HAS_AE_SDK"] [] prWrapper = some b ∧
      a.includes ⊆ b.includes ∧
      addedIncludes a b = ["AE_EffectCB.h", "AE_CacheOnLoadSuite.h", "PrSDKAESupport.h",
        "PrSDKOpaqueEffectDataSuite.h", "Smart_Utils.h"] ∧
      addedIncludes b a = []) :=
  ⟨by simp, by simp, optional_headers_gated_at_build_time [] (by simp) (by simp)⟩

/-- C7: `MAKE_PIXEL_FORMAT_FOURCC` is positional byte packing. For all integer
arguments the result is
`(ch0 mod 256) + 2^8 * (ch1 mod 256) + 2^16 * (ch2 mod 256) + 2^24 * (ch3 mod 256)`:
the bitwise OR of the shifted bytes is their sum. The result depends only on
the low 8 bits of each argument, is below `2^32`, and no shift overflows 32
bits. -/
theorem MAKE_PIXEL_FORMAT_FOURCC_positional (ch0 ch1 ch2 ch3 : Int) :
    ((MAKE_PIXEL_FORMAT_FOURCC ch0 ch1 ch2 ch3 : Nat) : Int)
      = ch0 % 256 + 2 ^ 8 * (ch1 % 256) + 2 ^ 16 * (ch2 % 256) + 2 ^ 24 * (ch3 % 256) ∧
    castU32 (castU8 ch0) ||| shl32 (castU32 (castU8 ch1)) 8 |||
        shl32 (castU32 (castU8 ch2)) 16 ||| shl32 (castU32 (castU8 ch3)) 24
      = castU32 (castU8 ch0) + shl32 (castU32 (castU8 ch1)) 8 +
        shl32 (castU32 (castU8 ch2)) 16 + shl32 (castU32 (castU8 ch3)) 24 ∧
    MAKE_PIXEL_FORMAT_FOURCC ch0 ch1 ch2 ch3
      = MAKE_PIXEL_FORMAT_FOURCC (ch0 % 256) (ch1 % 256) (ch2 % 256) (ch3 % 256) ∧
    (∀ k0 k1 k2 k3 : Int,
      MAKE_PIXEL_FORMAT_FOURCC (ch0 + 256 * k0) (ch1 + 256 * k1) (ch2 + 256 * k2) (ch3 + 256 * k3)
        = MAKE_PIXEL_FORMAT_FOURCC ch0 ch1 ch2 ch3) ∧
    MAKE_PIXEL_FORMAT_FOURCC ch0 ch1 ch2 ch3 < 2 ^ 32 ∧
    castU8 ch1 <<< 8 < 2 ^ 32 ∧ castU8 ch2 <<< 16 < 2 ^ 32 ∧ castU8 ch3 <<< 24 < 2 ^ 32 := by
  have l0 := castU8_lt ch0
  have l1 := castU8_lt ch1
  have l2 := castU8_lt ch2
  have l3 := castU8_lt ch3
  have e0 := castU8_cast ch0
  have e1 := castU8_cast ch1
  have e2 := castU8_cast ch2
  have e3 := castU8_cast ch3
  have hsum := MAKE_PIXEL_FORMAT_FOURCC_eq_sum ch0 ch1 ch2 ch3
  have c0 : castU32 (castU8 ch0) = castU8 ch0 := by
    unfold castU32
    exact Nat.mod_eq_of_lt (by omega)
  have s1 := shl32_byte _ 8 l1 (by decide)
  have s2 := shl32_byte _ 16 l2 (by decide)
  have s3 := shl32_byte _ 24 l3 (by decide)
  have t1 := Nat.shiftLeft_eq (castU8 ch1) 8
  have t2 := Nat.shiftLeft_eq (castU8 ch2) 16
  have t3 := Nat.shiftLeft_eq (castU8 ch3) 24
  have mod8 : ∀ x : Int, castU8 (x % 256) = castU8 x := by
    intro x
    unfold castU8
    omega
  have add8 : ∀ x k : Int, castU8 (x + 256 * k) = castU8 x := by
    intro x k
    unfold castU8
    omega
  refine ⟨?_, ?_, ?_, ?_, ?_, ?_, ?_, ?_⟩
  · rw [hsum]
    push_cast
    omega
  · have h := hsum
    unfold MAKE_PIXEL_FORMAT_FOURCC at h
    rw [h, c0, s1, s2, s3, t1, t2, t3]
    omega
  · rw [hsum, MAKE_PIXEL_FORMAT_FOURCC_eq_sum, mod8, mod8, mod8, mod8]
  · intro k0 k1 k2 k3
    rw [hsum, MAKE_PIXEL_FORMAT_FOURCC_eq_sum, add8, add8, add8, add8]
  · rw [hsum]
    omega
  · omega
  · omega
  · omega

/-- C8: `MAKE_PIXEL_FORMAT_FOURCC` is losslessly invertible on bytes. For
`c0..c3` in `0..255` and `v` the code they make, `(v >> 8*i) & 0xFF` is `c_i`
for `i = 0..3`; hence two tuples of bytes with the same code are equal. -/
theorem MAKE_PIXEL_FORMAT_FOURCC_invertible (c0 c1 c2 c3 d0 d1 d2 d3 : Int)
    (hc0 : 0 ≤ c0 ∧ c0 < 256) (hc1 : 0 ≤ c1 ∧ c1 < 256) (hc2 : 0 ≤ c2 ∧ c2 < 256)
    (hc3 : 0 ≤ c3 ∧ c3 < 256) (hd0 : 0 ≤ d0 ∧ d0 < 256) (hd1 : 0 ≤ d1 ∧ d1 < 256)
    (hd2 : 0 ≤ d2 ∧ d2 < 256) (hd3 : 0 ≤ d3 ∧ d3 < 256) :
    ((fourccByte (MAKE_PIXEL_FORMAT_FOURCC c0 c1 c2 c3) 0 : Nat) : Int) = c0 ∧
    ((fourccByte (MAKE_PIXEL_FORMAT_FOURCC c0 c1 c2 c3) 1 : Nat) : Int) = c1 ∧
    ((fourccByte (MAKE_PIXEL_FORMAT_FOURCC c0 c1 c2 c3) 2 : Nat) : Int) = c2 ∧
    ((fourccByte (MAKE_PIXEL_FORMAT_FOURCC c0 c1 c2 c3) 3 : Nat) : Int) = c3 ∧
    (MAKE_PIXEL_FORMAT_FOURCC c0 c1 c2 c3 = MAKE_PIXEL_FORMAT_FOURCC d0 d1 d2 d3 →
      c0 = d0 ∧ c1 = d1 ∧ c2 = d2 ∧ c3 = d3) := by
  have l0 := castU8_lt c0
  have l1 := castU8_lt c1
  have l2 := castU8_lt c2
  have l3 := castU8_lt c3
  have e0 := castU8_of_byte c0 hc0.1 hc0.2
  have e1 := castU8_of_byte c1 hc1.1 hc1.2
  have e2 := castU8_of_byte c2 hc2.1 hc2.2
  have e3 := castU8_of_byte c3 hc3.1 hc3.2
  have m0 := castU8_lt d0
  have m1 := castU8_lt d1
  have m2 := castU8_lt d2
  have m3 := castU8_lt d3
  have f0 := castU8_of_byte d0 hd0.1 hd0.2
  have f1 := castU8_of_byte d1 hd1.1 hd1.2
  have f2 := castU8_of_byte d2 hd2.1 hd2.2
  have f3 := castU8_of_byte d3 hd3.1 hd3.2
  have hc := MAKE_PIXEL_FORMAT_FOURCC_eq_sum c0 c1 c2 c3
  have hd := MAKE_PIXEL_FORMAT_FOURCC_eq_sum d0 d1 d2 d3
  refine ⟨?_, ?_, ?_, ?_, ?_⟩
  · rw [fourccByte_eq, hc]
    norm_num
    omega
  · rw [fourccByte_eq, hc]
    norm_num
    omega
  · rw [fourccByte_eq, hc]
    norm_num
    omega
  · rw [fourccByte_eq, hc]
    norm_num
    omega
  · intro h
    rw [hc, hd] at h
    omega

theorem MAKE_PIXEL_FORMAT_FOURCC_invertible_witness :
    (0 ≤ (64 : Int) ∧ (64 : Int) < 256) ∧ (0 ≤ (67 : Int) ∧ (67 : Int) < 256) ∧
    (0 ≤ (68 : Int) ∧ (68 : Int) < 256) ∧ (0 ≤ (65 : Int) ∧ (65 : Int) < 256) ∧
    ((fourccByte (MAKE_PIXEL_FORMAT_FOURCC 64 67 68 65) 0 : Nat) : Int) = 64 ∧
    ((fourccByte (MAKE_PIXEL_FORMAT_FOURCC 64 67 68 65) 1 : Nat) : Int) = 67 ∧
    ((fourccByte (MAKE_PIXEL_FORMAT_FOURCC 64 67 68 65) 2 : Nat) : Int) = 68 ∧
    ((fourccByte (MAKE_PIXEL_FORMAT_FOURCC 64 67 68 65) 3 : Nat) : Int) = 65 ∧
    (MAKE_PIXEL_FORMAT_FOURCC 64 67 68 65 = MAKE_PIXEL_FORMAT_FOURCC 64 67 68 65 →
      (64 : Int) = 64 ∧ (67 : Int) = 67 ∧ (68 : Int) = 68 ∧ (65 : Int) = 65) :=
  ⟨by decide, by decide, by decide, by decide,
    MAKE_PIXEL_FORMAT_FOURCC_invertible 64 67 68 65 64 67 68 65 (by decide) (by decide)
      (by decide) (by decide) (by decide) (by decide) (by decide) (by decide)⟩

/-- C9: the three string-suite error codes `suiteError_InvalidParms`
(`0x80000001`), `suiteError_StringNotFound` (`0x800A0000`) and
`suiteError_StringBufferTooSmall` (`0x800A0001`) are pairwise distinct; each,
reduced to the signed 32-bit `prSuiteError`, is negative, hence not the success
value 0; and the reduction keeps them pairwise distinct. -/
theorem suiteError_codes_distinct_and_negative :
    suiteError_InvalidParms = 0x80000001 ∧ suiteError_StringNotFound = 0x800A0000 ∧
    suiteError_StringBufferTooSmall = 0x800A0001 ∧
    suiteError_InvalidParms ≠ suiteError_StringNotFound ∧
    suiteError_InvalidParms ≠ suiteError_StringBufferTooSmall ∧
    suiteError_StringNotFound ≠ suiteError_StringBufferTooSmall ∧
    toInt32 suiteError_InvalidParms < 0 ∧ toInt32 suiteError_StringNotFound < 0 ∧
    toInt32 suiteError_StringBufferTooSmall < 0 ∧
    toInt32 suiteError_InvalidParms ≠ 0 ∧ toInt32 suiteError_StringNotFound ≠ 0 ∧
    toInt32 suiteError_StringBufferTooSmall ≠ 0 ∧
    toInt32 suiteError_InvalidParms ≠ toInt32 suiteError_StringNotFound ∧
    toInt32 suiteError_InvalidParms ≠ toInt32 suiteError_StringBufferTooSmall ∧
    toInt32 suiteError_StringNotFound ≠ toInt32 suiteError_StringBufferTooSmall := by
  refine ⟨rfl, rfl, rfl, ?_, ?_, ?_, ?_, ?_, ?_, ?_, ?_, ?_, ?_, ?_, ?_⟩ <;> decide

/-- C6: for every (name, version) pair the host advertises, in a live session,
`acquire` succeeds, `release` of the handle it returned succeeds, and a repeated
`acquire` of the same pair succeeds too; the release leaves no reservation
behind: the reference count of the pair is what it was before the first
`acquire`, the handle is `Released`, and the session is still live with the
same advertised pairs. -/
theorem acquire_release_leaves_no_reservation (ctx : AcquisitionContext) (name : SuiteName)
    (version : SuiteVersion) (hlive : ctx.live = true)
    (hsup : (name, version) ∈ ctx.supported) :
    ∃ h ctx1 ctx2 h2 ctx3,
      acquire ctx name version = .ok (h, ctx1) ∧
      release ctx1 h = .ok ctx2 ∧
      acquire ctx2 name version = .ok (h2, ctx3) ∧
      handleState ctx h = .Unacquired ∧ handleState ctx1 h = .Acquired ∧
      handleState ctx2 h = .Released ∧ handleState ctx3 h2 = .Acquired ∧
      refCount ctx1 name version = refCount ctx name version + 1 ∧
      refCount ctx2 name version = refCount ctx name version ∧
      ctx2.live = true ∧ ctx2.supported = ctx.supported := by
  refine ⟨⟨ctx.handles.length, name, version⟩,
    { ctx with handles := ctx.handles ++ [⟨name, version, .Acquired⟩] },
    { ctx with handles := ctx.handles ++ [⟨name, version, .Released⟩] },
    ⟨ctx.handles.length + 1, name, version⟩,
    { ctx with handles := ctx.handles ++ [⟨name, version, .Released⟩]
        ++ [⟨name, version, .Acquired⟩] }, ?_, ?_, ?_, ?_, ?_, ?_, ?_, ?_, ?_, ?_, ?_⟩
  · simp [acquire, hlive, hsup]
  · simp [release, hlive]
  · simp [acquire, hlive, hsup]
  · simp [handleState]
  · simp [handleState]
  · simp [handleState]
  · have hget : (ctx.handles ++ [⟨name, version, .Released⟩]
        ++ [⟨name, version, .Acquired⟩])[ctx.handles.length + 1]?
        = some (⟨name, version, .Acquired⟩ : HandleRecord) := by
      rw [List.getElem?_append_right (by simp)]
      simp
    simp only [handleState, hget]
  · simp [refCount, List.filter_append]
  · simp [refCount, List.filter_append]
  · exact hlive
  · rfl

theorem acquire_release_leaves_no_reservation_witness :
    sampleContext.live = true ∧
    (kPrSDKStringSuite, kPrSDKStringSuiteVersion) ∈ sampleContext.supported ∧
    ∃ h ctx1 ctx2 h2 ctx3,
      acquire sampleContext kPrSDKStringSuite kPrSDKStringSuiteVersion = .ok (h, ctx1) ∧
      release ctx1 h = .ok ctx2 ∧
      acquire ctx2 kPrSDKStringSuite kPrSDKStringSuiteVersion = .ok (h2, ctx3) ∧
      handleState sampleContext h = .Unacquired ∧ handleState ctx1 h = .Acquired ∧
      handleState ctx2 h = .Released ∧ handleState ctx3 h2 = .Acquired ∧
      refCount ctx1 kPrSDKStringSuite kPrSDKStringSuiteVersion
        = refCount sampleContext kPrSDKStringSuite kPrSDKStringSuiteVersion + 1 ∧
      refCount ctx2 kPrSDKStringSuite kPrSDKStringSuiteVersion
        = refCount sampleContext kPrSDKStringSuite kPrSDKStringSuiteVersion ∧
      ctx2.live = true ∧ ctx2.supported = sampleContext.supported :=
  ⟨rfl, by simp [sampleContext],
    acquire_release_leaves_no_reservation sampleContext kPrSDKStringSuite
      kPrSDKStringSuiteVersion rfl (by simp [sampleContext])⟩

end AfterEffects
